import Mathlib

/-!
Verification of the Graphiti MCP client and its web layer.

This file gives a shallow embedding of the two source files of the
repository:

  * `mcp_client_web/graphiti_mcp_client.py` — the session wrapper
    `GraphitiMCPClient` and the reply-unwrapping helper
    `_convert_result_to_dict`;
  * `mcp_client_web/app.py` — the Flask API routes.

External collaborators (the MCP `ClientSession`'s `call_tool` and
`list_resources`, Python's `json.loads`, the SSE transport) are modelled
as oracle parameters: the embedding quantifies over every outcome they
can produce.  Side effects on the wire are made observable by returning,
next to each operation's result, the list of `call_tool` invocations it
issued (tool name and parameter mapping).  Python exceptions are
modelled by the `Except` monad over an explicit error type.
-/

/-- JSON values, the common currency of parameter mappings and replies
(Python dicts/lists/str/int/None as serialized over MCP). -/
inductive JsonValue where
  | null
  | bool (b : Bool)
  | num (n : Int)
  | str (s : String)
  | arr (elems : List JsonValue)
  | obj (fields : List (String × JsonValue))

/-- Whether a JSON value is an object (a Python mapping). -/
def JsonValue.isObj : JsonValue → Bool
  | .obj _ => true
  | _ => false

/-- Python exceptions that appear in the source: `RuntimeError`,
`NotImplementedError`, `ValueError`, plus an opaque constructor for
whatever the transport or the remote call may raise. -/
inductive PyError where
  | runtimeError (msg : String)
  | notImplementedError (msg : String)
  | valueError (msg : String)
  | toolError (msg : String)
deriving DecidableEq

/-- `str(e)` on a Python exception: its message. -/
def PyError.pyStr : PyError → String
  | .runtimeError m => m
  | .notImplementedError m => m
  | .valueError m => m
  | .toolError m => m

/-- One item of a `CallToolResult`'s content list: either it has a
`.text` attribute (the `hasattr(content_item, 'text')` branch) or not,
in which case only its `str()` rendering is available. -/
inductive ContentItem where
  | text (t : String)
  | nonText (rendered : String)

/-- The reply of `session.call_tool`: in the MCP library `result.content`
is a list of content items (so the `isinstance(result.content, list)`
check of the source always passes). -/
structure CallToolResult where
  content : List ContentItem

/-- A parameter mapping, in insertion order (a Python dict). -/
abbrev Params := List (String × JsonValue)

/-- A recorded outgoing `call_tool` invocation: tool name and parameters. -/
abbrev ToolCall := String × Params

/-- The external session the wrapper delegates to: `call_tool` with its
possible replies or raised exceptions, and Python's `json.loads`
(`none` models a `JSONDecodeError`/`ValueError`). -/
structure Env where
  call_tool : String → Params → Except PyError CallToolResult
  jsonLoads : String → Option JsonValue

/-- The fixed placeholder `_convert_result_to_dict` returns when the
reply carries no content. -/
def successPlaceholder : JsonValue :=
  .obj [("message", .str "Operation completed successfully")]

/-- `_convert_result_to_dict` (graphiti_mcp_client.py lines 27-42):
unwrap the first content item; parse its text as JSON if possible,
otherwise wrap the raw text (or the item's `str()`) in `{"message": _}`;
with no content, return the fixed success placeholder. -/
def convertResultToDict (jsonLoads : String → Option JsonValue)
    (result : CallToolResult) : JsonValue :=
  match result.content with
  | [] => successPlaceholder
  | item :: _ =>
    match item with
    | .text t =>
      match jsonLoads t with
      | some parsed => parsed
      | none => .obj [("message", .str t)]
    | .nonText rendered => .obj [("message", .str rendered)]

/-- The `RuntimeError("Client session not initialized")` every operation
raises when `self.session` is not set. -/
def notInitializedError : PyError :=
  .runtimeError "Client session not initialized"

/-- Python `None`-or-string as a JSON parameter value. -/
def optStr : Option String → JsonValue
  | none => .null
  | some s => .str s

/-- The parameter dict built by `add_memory` (lines 145-152): note that
`group_id` and `uuid` are always present, as `null` when the caller
omitted them. -/
def addMemoryParams (name episode_body : String) (group_id : Option String)
    (source source_description : String) (uuid : Option String) : Params :=
  [("name", .str name),
   ("episode_body", .str episode_body),
   ("group_id", optStr group_id),
   ("source", .str source),
   ("source_description", .str source_description),
   ("uuid", optStr uuid)]

/-- The parameter dict built by `search_memory_nodes` (lines 182-192):
`group_ids` and `center_node_uuid` are added only when not `None`. -/
def searchMemoryNodesParams (query : String) (group_ids : Option (List String))
    (max_nodes : Int) (center_node_uuid : Option String) (entity : String) : Params :=
  let params : Params :=
    [("query", .str query), ("max_nodes", .num max_nodes), ("entity", .str entity)]
  let params := match group_ids with
    | some gs => params ++ [("group_ids", .arr (gs.map .str))]
    | none => params
  match center_node_uuid with
  | some c => params ++ [("center_node_uuid", .str c)]
  | none => params

/-- The parameter dict built by `search_memory_facts` (lines 221-230). -/
def searchMemoryFactsParams (query : String) (group_ids : Option (List String))
    (max_facts : Int) (center_node_uuid : Option String) : Params :=
  let params : Params :=
    [("query", .str query), ("max_facts", .num max_facts)]
  let params := match group_ids with
    | some gs => params ++ [("group_ids", .arr (gs.map .str))]
    | none => params
  match center_node_uuid with
  | some c => params ++ [("center_node_uuid", .str c)]
  | none => params

/-- The parameter dict built by `get_episodes` (lines 309-311):
`group_id` added only when not `None`. -/
def getEpisodesParams (group_id : Option String) (last_n : Int) : Params :=
  let params : Params := [("last_n", .num last_n)]
  match group_id with
  | some g => params ++ [("group_id", .str g)]
  | none => params

/-- The shared tail of every operation: one `call_tool` with the given
name and params; on success the converted reply, on failure the
`except ... raise` re-raise of the very same exception.  Either way
exactly one invocation is recorded. -/
def callToolOnce (env : Env) (name : String) (params : Params) :
    Except PyError JsonValue × List ToolCall :=
  match env.call_tool name params with
  | .ok result => (.ok (convertResultToDict env.jsonLoads result), [(name, params)])
  | .error e => (.error e, [(name, params)])

/-- `GraphitiMCPClient.add_memory` (lines 119-158).  `sessionSet` models
whether `self.session` has been established. -/
def GraphitiMCPClient.add_memory (env : Env) (sessionSet : Bool)
    (name episode_body : String) (group_id : Option String)
    (source source_description : String) (uuid : Option String) :
    Except PyError JsonValue × List ToolCall :=
  if !sessionSet then (.error notInitializedError, [])
  else callToolOnce env "add_memory"
    (addMemoryParams name episode_body group_id source source_description uuid)

/-- `GraphitiMCPClient.search_memory_nodes` (lines 160-199). -/
def GraphitiMCPClient.search_memory_nodes (env : Env) (sessionSet : Bool)
    (query : String) (group_ids : Option (List String)) (max_nodes : Int)
    (center_node_uuid : Option String) (entity : String) :
    Except PyError JsonValue × List ToolCall :=
  if !sessionSet then (.error notInitializedError, [])
  else callToolOnce env "search_memory_nodes"
    (searchMemoryNodesParams query group_ids max_nodes center_node_uuid entity)

/-- `GraphitiMCPClient.search_memory_facts` (lines 201-237). -/
def GraphitiMCPClient.search_memory_facts (env : Env) (sessionSet : Bool)
    (query : String) (group_ids : Option (List String)) (max_facts : Int)
    (center_node_uuid : Option String) :
    Except PyError JsonValue × List ToolCall :=
  if !sessionSet then (.error notInitializedError, [])
  else callToolOnce env "search_memory_facts"
    (searchMemoryFactsParams query group_ids max_facts center_node_uuid)

/-- `GraphitiMCPClient.delete_entity_edge` (lines 239-255). -/
def GraphitiMCPClient.delete_entity_edge (env : Env) (sessionSet : Bool)
    (uuid : String) : Except PyError JsonValue × List ToolCall :=
  if !sessionSet then (.error notInitializedError, [])
  else callToolOnce env "delete_entity_edge" [("uuid", .str uuid)]

/-- `GraphitiMCPClient.delete_episode` (lines 257-273). -/
def GraphitiMCPClient.delete_episode (env : Env) (sessionSet : Bool)
    (uuid : String) : Except PyError JsonValue × List ToolCall :=
  if !sessionSet then (.error notInitializedError, [])
  else callToolOnce env "delete_episode" [("uuid", .str uuid)]

/-- `GraphitiMCPClient.get_entity_edge` (lines 275-291). -/
def GraphitiMCPClient.get_entity_edge (env : Env) (sessionSet : Bool)
    (uuid : String) : Except PyError JsonValue × List ToolCall :=
  if !sessionSet then (.error notInitializedError, [])
  else callToolOnce env "get_entity_edge" [("uuid", .str uuid)]

/-- `GraphitiMCPClient.get_episodes` (lines 293-318). -/
def GraphitiMCPClient.get_episodes (env : Env) (sessionSet : Bool)
    (group_id : Option String) (last_n : Int) :
    Except PyError JsonValue × List ToolCall :=
  if !sessionSet then (.error notInitializedError, [])
  else callToolOnce env "get_episodes" (getEpisodesParams group_id last_n)

/-- `GraphitiMCPClient.clear_graph` (lines 320-331). -/
def GraphitiMCPClient.clear_graph (env : Env) (sessionSet : Bool) :
    Except PyError JsonValue × List ToolCall :=
  if !sessionSet then (.error notInitializedError, [])
  else callToolOnce env "clear_graph" []

/-- `GraphitiMCPClient.get_status` (lines 101-117): raises when the
session is not set; otherwise calls `list_resources` (whose outcome is
the oracle argument) and reports `connected` whether or not the listing
succeeded, only the message differing. -/
def GraphitiMCPClient.get_status (listResources : Except PyError Unit)
    (sessionSet : Bool) : Except PyError JsonValue :=
  if !sessionSet then .error notInitializedError
  else
    match listResources with
    | .ok _ =>
      .ok (.obj [("status", .str "connected"),
                 ("message", .str "Successfully connected to MCP server")])
    | .error _ =>
      .ok (.obj [("status", .str "connected"),
                 ("message", .str "Connected to MCP server (resource listing failed)")])

/-- `GraphitiMCPClient.initialize` (lines 92-99): raise when the session
is not set, otherwise perform the protocol handshake (the oracle's
outcome).  Named `initSession` here. -/
def GraphitiMCPClient.initSession (handshake : Except PyError Unit)
    (sessionSet : Bool) : Except PyError Unit :=
  if !sessionSet then .error notInitializedError
  else handshake

/-- The observable steps `__aenter__` may take on the SSE path:
opening the SSE transport and entering the `ClientSession` scope. -/
inductive EnterStep where
  | openSSETransport
  | enterSession
deriving DecidableEq

/-- Outcome of `__aenter__`: either the session is established or an
exception is raised. -/
inductive EnterOutcome where
  | sessionEstablished
  | raised (e : PyError)
deriving DecidableEq

/-- `GraphitiMCPClient.__aenter__` (lines 60-76), dispatch on the
configured transport: `"sse"` opens the transport and enters the
session; `"stdio"` raises `NotImplementedError` before touching any
transport; anything else raises `ValueError`.  The second component
records which acquisition steps were taken (empty on the raising
branches: no transport is opened, no handshake attempted). -/
def GraphitiMCPClient.aenter (transport : String) : EnterOutcome × List EnterStep :=
  if transport = "sse" then
    (.sessionEstablished, [.openSSETransport, .enterSession])
  else if transport = "stdio" then
    (.raised (.notImplementedError "Stdio transport not implemented in this example"), [])
  else
    (.raised (.valueError ("Unsupported transport: " ++ transport)), [])

/-- The two release actions `__aexit__` attempts. -/
inductive CloseStep where
  | closeSession
  | closeClient
deriving DecidableEq

/-- `GraphitiMCPClient.__aexit__` (lines 78-90): close the session if
present, swallowing (logging) any exception, then close the transport
client if present, again swallowing any exception.  Arguments
`sessionClose`/`clientClose` are the outcomes the two `__aexit__`
delegates would produce.  Returns the attempted steps and the exception
that propagates out (always none: both `except` blocks swallow). -/
def GraphitiMCPClient.aexit (hasSession hasClient : Bool)
    (sessionClose clientClose : Except PyError Unit) :
    List CloseStep × Option PyError :=
  let step1 : List CloseStep :=
    if hasSession then
      match sessionClose with
      | .ok _ => [.closeSession]
      | .error _ => [.closeSession]
    else []
  let step2 : List CloseStep :=
    if hasClient then
      match clientClose with
      | .ok _ => [.closeClient]
      | .error _ => [.closeClient]
    else []
  (step1 ++ step2, none)

/-! ## The web layer (`app.py`)

Each API route extracts fields from the JSON request body via
`data.get(key, default)`, opens a fresh `GraphitiMCPClient`, initializes
it, invokes the corresponding operation and serializes the outcome:
the operation's result as the body with status 200, or
`{"error": str(e)}` with status 500 when any step raised.  Request
bodies are modelled as records of optional fields (`none` = the key is
absent from the body, so `data.get` yields the default). -/

/-- An HTTP response: status code and JSON body. -/
structure HttpResponse where
  status : Nat
  body : JsonValue

/-- The `except Exception as e: return jsonify({'error': str(e)}), 500`
branch shared by every route. -/
def errorResponse (e : PyError) : HttpResponse :=
  ⟨500, .obj [("error", .str e.pyStr)]⟩

/-- What the web layer sees of the outside world: the session
environment plus the outcomes of `__aenter__`'s externals and of the
handshake performed by `initialize` for the fresh client the route
opens. -/
structure WebEnv where
  env : Env
  enter : Except PyError Unit
  handshake : Except PyError Unit

/-- Request body of `POST /api/add_memory` (app.py lines 63-69). -/
structure AddMemoryBody where
  name : Option String
  episode_body : Option String
  source : Option String
  source_description : Option String
  group_id : Option String
  uuid : Option String

/-- Request body of `POST /api/search_nodes` (app.py lines 89-94). -/
structure SearchNodesBody where
  query : Option String
  group_ids : Option (List String)
  max_nodes : Option Int
  center_node_uuid : Option String
  entity : Option String

/-- Request body of `POST /api/search_facts` (app.py lines 113-117). -/
structure SearchFactsBody where
  query : Option String
  group_ids : Option (List String)
  max_facts : Option Int
  center_node_uuid : Option String

/-- Request body of `POST /api/get_episodes` (app.py lines 135-137). -/
structure GetEpisodesBody where
  group_id : Option String
  last_n : Option Int

/-- Run one route body: open the client, initialize, run the operation,
map the outcome to 200/500.  Shared shape of the four POST routes. -/
def routeRun (w : WebEnv) (op : Except PyError JsonValue × List ToolCall) :
    HttpResponse × List ToolCall :=
  match w.enter with
  | .error e => (errorResponse e, [])
  | .ok _ =>
    match w.handshake with
    | .error e => (errorResponse e, [])
    | .ok _ =>
      match op.1 with
      | .ok result => (⟨200, result⟩, op.2)
      | .error e => (errorResponse e, op.2)

/-- `POST /api/add_memory` (app.py lines 59-83). -/
def App.add_memory (w : WebEnv) (body : AddMemoryBody) :
    HttpResponse × List ToolCall :=
  routeRun w (GraphitiMCPClient.add_memory w.env true
    (body.name.getD "") (body.episode_body.getD "") body.group_id
    (body.source.getD "text") (body.source_description.getD "") body.uuid)

/-- `POST /api/search_nodes` (app.py lines 85-107): `max_nodes`
defaults to 10, `entity` to `""`. -/
def App.search_nodes (w : WebEnv) (body : SearchNodesBody) :
    HttpResponse × List ToolCall :=
  routeRun w (GraphitiMCPClient.search_memory_nodes w.env true
    (body.query.getD "") body.group_ids (body.max_nodes.getD 10)
    body.center_node_uuid (body.entity.getD ""))

/-- `POST /api/search_facts` (app.py lines 109-129): `max_facts`
defaults to 10. -/
def App.search_facts (w : WebEnv) (body : SearchFactsBody) :
    HttpResponse × List ToolCall :=
  routeRun w (GraphitiMCPClient.search_memory_facts w.env true
    (body.query.getD "") body.group_ids (body.max_facts.getD 10)
    body.center_node_uuid)

/-- `POST /api/get_episodes` (app.py lines 131-147): `last_n`
defaults to 10. -/
def App.get_episodes (w : WebEnv) (body : GetEpisodesBody) :
    HttpResponse × List ToolCall :=
  routeRun w (GraphitiMCPClient.get_episodes w.env true
    body.group_id (body.last_n.getD 10))

/-! ## Theorems -/

/-- Whatever `call_tool` returns or raises, exactly the one recorded
invocation is issued. -/
theorem callToolOnce_snd (env : Env) (n : String) (p : Params) :
    (callToolOnce env n p).2 = [(n, p)] := by
  unfold callToolOnce
  cases env.call_tool n p <;> rfl

/-- C2: every one of the seven remote operations named by the claim,
invoked while `self.session` is unset, fails with the
"Client session not initialized" `RuntimeError` and issues no
`call_tool` invocation at all. -/
theorem C2_not_initialized_no_network (env : Env)
    (a b c d ent u : String) (g k : Option String)
    (gs : Option (List String)) (m p q : Int) :
    GraphitiMCPClient.add_memory env false a b g c d k =
      (.error notInitializedError, []) ∧
    GraphitiMCPClient.search_memory_nodes env false a gs m k ent =
      (.error notInitializedError, []) ∧
    GraphitiMCPClient.search_memory_facts env false a gs p k =
      (.error notInitializedError, []) ∧
    GraphitiMCPClient.delete_entity_edge env false u =
      (.error notInitializedError, []) ∧
    GraphitiMCPClient.delete_episode env false u =
      (.error notInitializedError, []) ∧
    GraphitiMCPClient.get_episodes env false g q =
      (.error notInitializedError, []) ∧
    GraphitiMCPClient.clear_graph env false =
      (.error notInitializedError, []) :=
  ⟨rfl, rfl, rfl, rfl, rfl, rfl, rfl⟩

/-- C8: at `__aenter__`, transport `"stdio"` raises
`NotImplementedError` with no acquisition step taken (so before any
handshake), any transport other than `"sse"`/`"stdio"` raises the
unsupported-transport `ValueError`, and only `"sse"` proceeds to open
the transport and establish the session. -/
theorem C8_transport_dispatch :
    GraphitiMCPClient.aenter "stdio" =
      (.raised (.notImplementedError "Stdio transport not implemented in this example"), []) ∧
    (∀ t : String, t ≠ "sse" → t ≠ "stdio" →
      GraphitiMCPClient.aenter t =
        (.raised (.valueError ("Unsupported transport: " ++ t)), [])) ∧
    GraphitiMCPClient.aenter "sse" =
      (.sessionEstablished, [.openSSETransport, .enterSession]) := by
  refine ⟨by simp [GraphitiMCPClient.aenter], ?_, by simp [GraphitiMCPClient.aenter]⟩
  intro t h1 h2
  simp [GraphitiMCPClient.aenter, h1, h2]

/-- Witness for C8 at the concrete transport `"websocket"`. -/
theorem C8_transport_dispatch_witness :
    GraphitiMCPClient.aenter "websocket" =
      (.raised (.valueError ("Unsupported transport: " ++ "websocket")), []) :=
  C8_transport_dispatch.2.1 "websocket" (by decide) (by decide)

/-- C9: `__aexit__` with both a session and a transport client present
attempts to release both, in order, for every combination of outcomes of
the two close operations, and no exception ever propagates out of it
(both `except` blocks swallow), so a failing session close never
prevents the transport close. -/
theorem C9_aexit_releases_both (sessionClose clientClose : Except PyError Unit) :
    GraphitiMCPClient.aexit true true sessionClose clientClose =
      ([.closeSession, .closeClient], none) ∧
    ∀ hs hc : Bool,
      (GraphitiMCPClient.aexit hs hc sessionClose clientClose).2 = none := by
  constructor
  · cases sessionClose <;> cases clientClose <;> rfl
  · intro hs hc
    cases hs <;> cases hc <;> cases sessionClose <;> cases clientClose <;> rfl

/-- A concrete environment whose `call_tool` replies with an empty
content list and whose `json.loads` always fails. -/
def env0 : Env := ⟨fun _ _ => .ok ⟨[]⟩, fun _ => none⟩

/-- C1 counterexample: `add_memory` invoked with `group_id` and `uuid`
omitted (their `None` defaults) still sends both keys, with an explicit
null value, in the parameter mapping of the one `call_tool` it issues —
the keys are not absent. -/
theorem C1_counterexample :
    ("group_id", JsonValue.null) ∈
      addMemoryParams "Example Note" "This is an example note" none "text" "example" none ∧
    ("uuid", JsonValue.null) ∈
      addMemoryParams "Example Note" "This is an example note" none "text" "example" none ∧
    (GraphitiMCPClient.add_memory env0 true "Example Note" "This is an example note"
        none "text" "example" none).2 =
      [("add_memory",
        addMemoryParams "Example Note" "This is an example note" none "text" "example" none)] := by
  refine ⟨?_, ?_, rfl⟩ <;> simp [addMemoryParams, optStr]

/-- C1 amended: for `search_memory_nodes`, `search_memory_facts` and
`get_episodes`, an omitted optional argument (`group_ids`,
`center_node_uuid`, `group_id`) leaves its key absent from the outgoing
parameter mapping; `add_memory`, by contrast, always includes its
optional keys `group_id` and `uuid`, sending an explicit null when the
caller omits them. -/
theorem C1_amended_optional_params (q ent n b s sd : String)
    (gids : Option (List String)) (c g k : Option String) (mn mf ln : Int) :
    "group_ids" ∉ (searchMemoryNodesParams q none mn c ent).map Prod.fst ∧
    "center_node_uuid" ∉ (searchMemoryNodesParams q gids mn none ent).map Prod.fst ∧
    "group_ids" ∉ (searchMemoryFactsParams q none mf c).map Prod.fst ∧
    "center_node_uuid" ∉ (searchMemoryFactsParams q gids mf none).map Prod.fst ∧
    "group_id" ∉ (getEpisodesParams none ln).map Prod.fst ∧
    ("group_id", JsonValue.null) ∈ addMemoryParams n b none s sd k ∧
    ("uuid", JsonValue.null) ∈ addMemoryParams n b g s sd none := by
  refine ⟨?_, ?_, ?_, ?_, ?_, ?_, ?_⟩
  · cases c <;> simp [searchMemoryNodesParams]
  · cases gids <;> simp [searchMemoryNodesParams]
  · cases c <;> simp [searchMemoryFactsParams]
  · cases gids <;> simp [searchMemoryFactsParams]
  · simp [getEpisodesParams]
  · simp [addMemoryParams, optStr]
  · simp [addMemoryParams, optStr]

/-- C3: unwrapping a reply whose first content item's text parses as
JSON yields exactly the parsed structure; when the text does not parse,
the unmodified text wrapped as `{"message": text}`; and a reply with no
content yields the fixed success placeholder. -/
theorem C3_reply_unwrapping (jl : String → Option JsonValue) (t : String)
    (rest : List ContentItem) :
    (∀ parsed, jl t = some parsed →
      convertResultToDict jl ⟨ContentItem.text t :: rest⟩ = parsed) ∧
    (jl t = none →
      convertResultToDict jl ⟨ContentItem.text t :: rest⟩ =
        .obj [("message", .str t)]) ∧
    convertResultToDict jl ⟨[]⟩ = successPlaceholder := by
  refine ⟨?_, ?_, rfl⟩
  · intro parsed hp
    simp [convertResultToDict, hp]
  · intro hp
    simp [convertResultToDict, hp]

/-- A concrete `json.loads` oracle: parses exactly the text
`"[1, 2]"`. -/
def jl0 : String → Option JsonValue := fun s =>
  if s = "[1, 2]" then some (.arr [.num 1, .num 2]) else none

/-- Witness for C3 on concrete replies: JSON text, non-JSON text and an
empty reply. -/
theorem C3_reply_unwrapping_witness :
    convertResultToDict jl0 ⟨[.text "[1, 2]"]⟩ = JsonValue.arr [.num 1, .num 2] ∧
    convertResultToDict jl0 ⟨[.text "hello"]⟩ =
      .obj [("message", .str "hello")] :=
  ⟨(C3_reply_unwrapping jl0 "[1, 2]" []).1 (JsonValue.arr [.num 1, .num 2]) (by simp [jl0]),
   (C3_reply_unwrapping jl0 "hello" []).2.1 (by simp [jl0])⟩

/-- C4: with an established session, `get_status` returns an object with
status `"connected"` for every outcome of the `list_resources` call, and
when the listing fails it returns the degraded message instead of
raising. -/
theorem C4_get_status_never_raises (lr : Except PyError Unit) :
    (∃ fields, GraphitiMCPClient.get_status lr true = .ok (.obj fields) ∧
      ("status", JsonValue.str "connected") ∈ fields) ∧
    (∀ e, lr = .error e →
      GraphitiMCPClient.get_status lr true =
        .ok (.obj [("status", .str "connected"),
                   ("message", .str "Connected to MCP server (resource listing failed)")])) := by
  constructor
  · cases lr <;> exact ⟨_, rfl, by simp⟩
  · rintro e rfl
    rfl

/-- Witness for C4 at a concrete listing failure. -/
theorem C4_get_status_never_raises_witness :
    GraphitiMCPClient.get_status (.error (.toolError "boom")) true =
      .ok (.obj [("status", .str "connected"),
                 ("message", .str "Connected to MCP server (resource listing failed)")]) :=
  (C4_get_status_never_raises (.error (.toolError "boom"))).2 (.toolError "boom") rfl

/-- C5: for every operation, when the single remote call raises, the
operation re-raises that very exception unchanged, and its only effect
is the one recorded `call_tool` invocation — no retry, no fallback
value. -/
theorem C5_failure_reraised_unchanged (env : Env) (e : PyError) :
    (∀ n b g s sd u,
      env.call_tool "add_memory" (addMemoryParams n b g s sd u) = .error e →
      GraphitiMCPClient.add_memory env true n b g s sd u =
        (.error e, [("add_memory", addMemoryParams n b g s sd u)])) ∧
    (∀ q gs m c ent,
      env.call_tool "search_memory_nodes" (searchMemoryNodesParams q gs m c ent) = .error e →
      GraphitiMCPClient.search_memory_nodes env true q gs m c ent =
        (.error e, [("search_memory_nodes", searchMemoryNodesParams q gs m c ent)])) ∧
    (∀ q gs m c,
      env.call_tool "search_memory_facts" (searchMemoryFactsParams q gs m c) = .error e →
      GraphitiMCPClient.search_memory_facts env true q gs m c =
        (.error e, [("search_memory_facts", searchMemoryFactsParams q gs m c)])) ∧
    (∀ u, env.call_tool "delete_entity_edge" [("uuid", .str u)] = .error e →
      GraphitiMCPClient.delete_entity_edge env true u =
        (.error e, [("delete_entity_edge", [("uuid", .str u)])])) ∧
    (∀ u, env.call_tool "delete_episode" [("uuid", .str u)] = .error e →
      GraphitiMCPClient.delete_episode env true u =
        (.error e, [("delete_episode", [("uuid", .str u)])])) ∧
    (∀ u, env.call_tool "get_entity_edge" [("uuid", .str u)] = .error e →
      GraphitiMCPClient.get_entity_edge env true u =
        (.error e, [("get_entity_edge", [("uuid", .str u)])])) ∧
    (∀ g ln, env.call_tool "get_episodes" (getEpisodesParams g ln) = .error e →
      GraphitiMCPClient.get_episodes env true g ln =
        (.error e, [("get_episodes", getEpisodesParams g ln)])) ∧
    (env.call_tool "clear_graph" [] = .error e →
      GraphitiMCPClient.clear_graph env true =
        (.error e, [("clear_graph", [])])) := by
  refine ⟨?_, ?_, ?_, ?_, ?_, ?_, ?_, ?_⟩ <;>
    intros <;>
    simp_all [GraphitiMCPClient.add_memory, GraphitiMCPClient.search_memory_nodes,
      GraphitiMCPClient.search_memory_facts, GraphitiMCPClient.delete_entity_edge,
      GraphitiMCPClient.delete_episode, GraphitiMCPClient.get_entity_edge,
      GraphitiMCPClient.get_episodes, GraphitiMCPClient.clear_graph, callToolOnce]

/-- A concrete environment whose remote call always raises. -/
def envErr : Env := ⟨fun _ _ => .error (.toolError "boom"), fun _ => none⟩

/-- Witness for C5: a concrete failing `clear_graph` call re-raises its
exception after the one invocation. -/
theorem C5_failure_reraised_unchanged_witness :
    GraphitiMCPClient.clear_graph envErr true =
      (.error (.toolError "boom"), [("clear_graph", [])]) :=
  (C5_failure_reraised_unchanged envErr (.toolError "boom")).2.2.2.2.2.2.2 rfl

/-- C7: with an established session, every operation issues exactly one
`call_tool` invocation, under its fixed tool name, and every key of the
parameter mapping it sends is among the keys the verbatim contract lists
for that tool. -/
theorem C7_single_call_fixed_contract (env : Env) :
    (∀ n b g s sd u,
      (GraphitiMCPClient.add_memory env true n b g s sd u).2 =
        [("add_memory", addMemoryParams n b g s sd u)] ∧
      (addMemoryParams n b g s sd u).map Prod.fst ⊆
        ["name", "episode_body", "group_id", "source", "source_description", "uuid"]) ∧
    (∀ q gs m c ent,
      (GraphitiMCPClient.search_memory_nodes env true q gs m c ent).2 =
        [("search_memory_nodes", searchMemoryNodesParams q gs m c ent)] ∧
      (searchMemoryNodesParams q gs m c ent).map Prod.fst ⊆
        ["query", "max_nodes", "entity", "group_ids", "center_node_uuid"]) ∧
    (∀ q gs m c,
      (GraphitiMCPClient.search_memory_facts env true q gs m c).2 =
        [("search_memory_facts", searchMemoryFactsParams q gs m c)] ∧
      (searchMemoryFactsParams q gs m c).map Prod.fst ⊆
        ["query", "max_facts", "group_ids", "center_node_uuid"]) ∧
    (∀ u, (GraphitiMCPClient.delete_entity_edge env true u).2 =
        [("delete_entity_edge", [("uuid", .str u)])]) ∧
    (∀ u, (GraphitiMCPClient.delete_episode env true u).2 =
        [("delete_episode", [("uuid", .str u)])]) ∧
    (∀ u, (GraphitiMCPClient.get_entity_edge env true u).2 =
        [("get_entity_edge", [("uuid", .str u)])]) ∧
    (∀ g ln, (GraphitiMCPClient.get_episodes env true g ln).2 =
        [("get_episodes", getEpisodesParams g ln)] ∧
      (getEpisodesParams g ln).map Prod.fst ⊆ ["last_n", "group_id"]) ∧
    (GraphitiMCPClient.clear_graph env true).2 = [("clear_graph", [])] := by
  refine ⟨?_, ?_, ?_, ?_, ?_, ?_, ?_, ?_⟩
  · intro n b g s sd u
    exact ⟨callToolOnce_snd env _ _, by simp [addMemoryParams]⟩
  · intro q gs m c ent
    refine ⟨callToolOnce_snd env _ _, ?_⟩
    cases gs <;> cases c <;> simp [searchMemoryNodesParams]
  · intro q gs m c
    refine ⟨callToolOnce_snd env _ _, ?_⟩
    cases gs <;> cases c <;> simp [searchMemoryFactsParams]
  · intro u
    exact callToolOnce_snd env _ _
  · intro u
    exact callToolOnce_snd env _ _
  · intro u
    exact callToolOnce_snd env _ _
  · intro g ln
    refine ⟨callToolOnce_snd env _ _, ?_⟩
    cases g <;> simp [getEpisodesParams]
  · exact callToolOnce_snd env _ _

/-- C10: when the first content item's text parses as JSON to a
non-object value, the unwrapping returns that value directly, and so
does every operation whose remote call replied with such content — the
declared mapping shape is not guaranteed. -/
theorem C10_nonobject_passthrough (env : Env) (t : String) (j : JsonValue)
    (rest : List ContentItem) (hp : env.jsonLoads t = some j)
    (hno : j.isObj = false) :
    (∀ r : CallToolResult, r.content = ContentItem.text t :: rest →
      convertResultToDict env.jsonLoads r = j) ∧
    (∀ n b g s sd u,
      env.call_tool "add_memory" (addMemoryParams n b g s sd u) =
        .ok ⟨ContentItem.text t :: rest⟩ →
      (GraphitiMCPClient.add_memory env true n b g s sd u).1 = .ok j) ∧
    (∀ q gs m c ent,
      env.call_tool "search_memory_nodes" (searchMemoryNodesParams q gs m c ent) =
        .ok ⟨ContentItem.text t :: rest⟩ →
      (GraphitiMCPClient.search_memory_nodes env true q gs m c ent).1 = .ok j) ∧
    (∀ q gs m c,
      env.call_tool "search_memory_facts" (searchMemoryFactsParams q gs m c) =
        .ok ⟨ContentItem.text t :: rest⟩ →
      (GraphitiMCPClient.search_memory_facts env true q gs m c).1 = .ok j) ∧
    (∀ u, env.call_tool "delete_entity_edge" [("uuid", .str u)] =
        .ok ⟨ContentItem.text t :: rest⟩ →
      (GraphitiMCPClient.delete_entity_edge env true u).1 = .ok j) ∧
    (∀ u, env.call_tool "delete_episode" [("uuid", .str u)] =
        .ok ⟨ContentItem.text t :: rest⟩ →
      (GraphitiMCPClient.delete_episode env true u).1 = .ok j) ∧
    (∀ u, env.call_tool "get_entity_edge" [("uuid", .str u)] =
        .ok ⟨ContentItem.text t :: rest⟩ →
      (GraphitiMCPClient.get_entity_edge env true u).1 = .ok j) ∧
    (∀ g ln, env.call_tool "get_episodes" (getEpisodesParams g ln) =
        .ok ⟨ContentItem.text t :: rest⟩ →
      (GraphitiMCPClient.get_episodes env true g ln).1 = .ok j) ∧
    (env.call_tool "clear_graph" [] = .ok ⟨ContentItem.text t :: rest⟩ →
      (GraphitiMCPClient.clear_graph env true).1 = .ok j) := by
  have hconv : ∀ r : CallToolResult, r.content = ContentItem.text t :: rest →
      convertResultToDict env.jsonLoads r = j := by
    intro r hr
    simp [convertResultToDict, hr, hp]
  refine ⟨hconv, ?_, ?_, ?_, ?_, ?_, ?_, ?_, ?_⟩ <;>
    intros <;>
    simp_all [GraphitiMCPClient.add_memory, GraphitiMCPClient.search_memory_nodes,
      GraphitiMCPClient.search_memory_facts, GraphitiMCPClient.delete_entity_edge,
      GraphitiMCPClient.delete_episode, GraphitiMCPClient.get_entity_edge,
      GraphitiMCPClient.get_episodes, GraphitiMCPClient.clear_graph,
      callToolOnce, convertResultToDict]

/-- A concrete environment whose remote call replies with the JSON array
text `"[1, 2]"`. -/
def envArr : Env := ⟨fun _ _ => .ok ⟨[.text "[1, 2]"]⟩, jl0⟩

/-- Witness for C10: a concrete `clear_graph` call returns the parsed
JSON array, a non-object value. -/
theorem C10_nonobject_passthrough_witness :
    (GraphitiMCPClient.clear_graph envArr true).1 =
      .ok (JsonValue.arr [.num 1, .num 2]) ∧
    JsonValue.isObj (JsonValue.arr [.num 1, .num 2]) = false :=
  ⟨(C10_nonobject_passthrough envArr "[1, 2]" (JsonValue.arr [.num 1, .num 2]) []
      (by simp [envArr, jl0]) rfl).2.2.2.2.2.2.2.2 rfl, rfl⟩

/-- C6: every POST API route returns the operation's result as the body
with status 200 when the operation succeeds, and `{"error": str(e)}`
with status 500 when any step raised (shown here both for a failure of
the remote call and for a failure while opening the client); missing
body fields take their defaults, in particular an absent `max_nodes`
puts `max_nodes = 10` into the single outgoing call. -/
theorem C6_api_routes (w : WebEnv) :
    (∀ body r, w.enter = .ok () → w.handshake = .ok () →
      (GraphitiMCPClient.add_memory w.env true (body.name.getD "")
          (body.episode_body.getD "") body.group_id (body.source.getD "text")
          (body.source_description.getD "") body.uuid).1 = .ok r →
      (App.add_memory w body).1 = ⟨200, r⟩) ∧
    (∀ body e, w.enter = .ok () → w.handshake = .ok () →
      (GraphitiMCPClient.add_memory w.env true (body.name.getD "")
          (body.episode_body.getD "") body.group_id (body.source.getD "text")
          (body.source_description.getD "") body.uuid).1 = .error e →
      (App.add_memory w body).1 = errorResponse e) ∧
    (∀ (body : AddMemoryBody) e, w.enter = .error e →
      (App.add_memory w body).1 = errorResponse e) ∧
    (∀ body r, w.enter = .ok () → w.handshake = .ok () →
      (GraphitiMCPClient.search_memory_nodes w.env true (body.query.getD "")
          body.group_ids (body.max_nodes.getD 10) body.center_node_uuid
          (body.entity.getD "")).1 = .ok r →
      (App.search_nodes w body).1 = ⟨200, r⟩) ∧
    (∀ body e, w.enter = .ok () → w.handshake = .ok () →
      (GraphitiMCPClient.search_memory_nodes w.env true (body.query.getD "")
          body.group_ids (body.max_nodes.getD 10) body.center_node_uuid
          (body.entity.getD "")).1 = .error e →
      (App.search_nodes w body).1 = errorResponse e) ∧
    (∀ (body : SearchNodesBody) e, w.enter = .error e →
      (App.search_nodes w body).1 = errorResponse e) ∧
    (∀ body r, w.enter = .ok () → w.handshake = .ok () →
      (GraphitiMCPClient.search_memory_facts w.env true (body.query.getD "")
          body.group_ids (body.max_facts.getD 10) body.center_node_uuid).1 = .ok r →
      (App.search_facts w body).1 = ⟨200, r⟩) ∧
    (∀ body e, w.enter = .ok () → w.handshake = .ok () →
      (GraphitiMCPClient.search_memory_facts w.env true (body.query.getD "")
          body.group_ids (body.max_facts.getD 10) body.center_node_uuid).1 = .error e →
      (App.search_facts w body).1 = errorResponse e) ∧
    (∀ (body : SearchFactsBody) e, w.enter = .error e →
      (App.search_facts w body).1 = errorResponse e) ∧
    (∀ body r, w.enter = .ok () → w.handshake = .ok () →
      (GraphitiMCPClient.get_episodes w.env true body.group_id
          (body.last_n.getD 10)).1 = .ok r →
      (App.get_episodes w body).1 = ⟨200, r⟩) ∧
    (∀ body e, w.enter = .ok () → w.handshake = .ok () →
      (GraphitiMCPClient.get_episodes w.env true body.group_id
          (body.last_n.getD 10)).1 = .error e →
      (App.get_episodes w body).1 = errorResponse e) ∧
    (∀ (body : GetEpisodesBody) e, w.enter = .error e →
      (App.get_episodes w body).1 = errorResponse e) ∧
    (∀ q gs c ent, w.enter = .ok () → w.handshake = .ok () →
      (App.search_nodes w ⟨q, gs, none, c, ent⟩).2 =
        [("search_memory_nodes",
          searchMemoryNodesParams (q.getD "") gs 10 c (ent.getD ""))] ∧
      ("max_nodes", JsonValue.num 10) ∈
        searchMemoryNodesParams (q.getD "") gs 10 c (ent.getD "")) := by
  refine ⟨?_, ?_, ?_, ?_, ?_, ?_, ?_, ?_, ?_, ?_, ?_, ?_, ?_⟩ <;>
    intros <;>
    simp_all [App.add_memory, App.search_nodes, App.search_facts, App.get_episodes,
      routeRun]
  case _ q gs c ent h1 h2 =>
    refine ⟨?_, ?_⟩
    · cases hop : (GraphitiMCPClient.search_memory_nodes w.env true (q.getD "")
          gs 10 c (ent.getD "")).1 <;>
        simp [hop] <;>
        exact callToolOnce_snd w.env _ _
    · cases gs <;> cases c <;> simp [searchMemoryNodesParams]

/-- A concrete web environment: client opens and initializes fine, the
remote call replies with the JSON array text `"[1, 2]"`. -/
def wOk : WebEnv := ⟨envArr, .ok (), .ok ()⟩

/-- A concrete web environment in which opening the client raises. -/
def wEnterFail : WebEnv := ⟨envArr, .error (.toolError "connect failed"), .ok ()⟩

/-- Witness for C6 at concrete requests: a successful `search_nodes`
yields 200 with the operation's result, a failed client open yields the
500 error body. -/
theorem C6_api_routes_witness :
    (App.search_nodes wOk ⟨some "example", none, some 5, none, none⟩).1 =
      ⟨200, JsonValue.arr [.num 1, .num 2]⟩ ∧
    (App.search_nodes wEnterFail ⟨some "example", none, some 5, none, none⟩).1 =
      errorResponse (.toolError "connect failed") :=
  ⟨(C6_api_routes wOk).2.2.2.1 ⟨some "example", none, some 5, none, none⟩
      (JsonValue.arr [.num 1, .num 2]) rfl rfl
      (by simp [GraphitiMCPClient.search_memory_nodes, callToolOnce, wOk, envArr,
        convertResultToDict, jl0]),
   (C6_api_routes wEnterFail).2.2.2.2.2.1 ⟨some "example", none, some 5, none, none⟩
      (.toolError "connect failed") rfl⟩
